import Mathlib

/-!
Verification development for the universal document classifier / extractor
application (src/app.py).  The application is a thin orchestration layer:
a static type-to-schema table, a startup provisioning loop that fetches or
creates one remote extraction agent per schema, and an upload handler that
classifies a file, routes it to the matching agent, renders the extracted
fields as cards, and deletes the temporary file.

The remote services (classification and extraction) are modelled as
oracles (function parameters); the handler's observable behaviour is
modelled as a trace of events plus an optional uncaught exception.
-/

namespace DocApp

/-- Field types appearing in the pydantic schemas of app.py:
`str`, `float`, `list[str]`, `list[dict]`. -/
inductive FieldType where
  | strF
  | floatF
  | listStrF
  | listDictF
deriving DecidableEq, Repr

/-- A pydantic schema: the ordered list of (field name, field type) pairs. -/
structure Schema where
  fields : List (String × FieldType)
deriving DecidableEq, Repr

/-- Schema `Invoice` from app.py. -/
def Invoice : Schema :=
  ⟨[("invoice_number", .strF), ("date", .strF), ("total", .floatF),
    ("items", .listDictF)]⟩

/-- Schema `Receipt` from app.py. -/
def Receipt : Schema :=
  ⟨[("merchant", .strF), ("date", .strF), ("total", .floatF),
    ("items", .listDictF)]⟩

/-- Schema `Resume` from app.py. -/
def Resume : Schema :=
  ⟨[("name", .strF), ("email", .strF), ("phone", .strF),
    ("skills", .listStrF), ("experience", .listStrF)]⟩

/-- Schema `AadhaarCard` from app.py. -/
def AadhaarCard : Schema :=
  ⟨[("name", .strF), ("aadhaar_number", .strF), ("dob", .strF),
    ("gender", .strF), ("address", .strF)]⟩

/-- Schema `PANCard` from app.py. -/
def PANCard : Schema :=
  ⟨[("name", .strF), ("pan_number", .strF), ("dob", .strF),
    ("father_name", .strF)]⟩

/-- Schema `BankStatement` from app.py. -/
def BankStatement : Schema :=
  ⟨[("account_holder", .strF), ("account_number", .strF),
    ("bank_name", .strF), ("transactions", .listDictF)]⟩

/-- Schema `CoverLetter` from app.py. -/
def CoverLetter : Schema :=
  ⟨[("candidate_name", .strF), ("email", .strF), ("company_name", .strF),
    ("position", .strF), ("summary", .strF)]⟩

/-- Schema `LabReport` from app.py. -/
def LabReport : Schema :=
  ⟨[("patient_name", .strF), ("test_name", .strF), ("result", .strF),
    ("normal_range", .strF), ("date", .strF)]⟩

/-- Schema `Prescription` from app.py. -/
def Prescription : Schema :=
  ⟨[("doctor_name", .strF), ("patient_name", .strF),
    ("medicines", .listStrF), ("dosage", .strF), ("date", .strF)]⟩

/-- Schema `MedicalRecord` from app.py. -/
def MedicalRecord : Schema :=
  ⟨[("patient_name", .strF), ("diagnosis", .strF), ("treatment", .strF),
    ("doctor_name", .strF), ("date", .strF)]⟩

/-- The `agent_definitions` dict of app.py, in insertion order. -/
def agent_definitions : List (String × Schema) :=
  [("invoice-extractor", Invoice),
   ("receipt-extractor", Receipt),
   ("resume-extractor", Resume),
   ("aadhaar-extractor", AadhaarCard),
   ("pan-extractor", PANCard),
   ("bank-extractor", BankStatement),
   ("coverletter-extractor", CoverLetter),
   ("labreport-extractor", LabReport),
   ("prescription-extractor", Prescription),
   ("medicalrecord-extractor", MedicalRecord)]

/-- A remote extraction agent handle: its name and the schema it is bound
to.  The handle is opaque in app.py; these two components are what the
local code can observe about it. -/
structure Agent where
  name : String
  schema : Schema
deriving DecidableEq, Repr

/-- One iteration of the provisioning loop of app.py:
`try: agents[n] = extractor.get_agent(n) except: agents[n] = extractor.create_agent(n, schema)`.
The bare `except:` catches every fetch error, so any `.error` from the
fetch oracle falls through to the create oracle. -/
def provision_step (fetch : String → Except String Agent)
    (create : String → Schema → Except String Agent)
    (name : String) (schema : Schema) : Except String Agent :=
  match fetch name with
  | Except.ok a => Except.ok a
  | Except.error _ => create name schema

/-- The full provisioning loop of app.py over a definitions table,
building the `agents` mapping in iteration order.  A create failure is
uncaught and aborts the loop (and with it process start). -/
def provision (fetch : String → Except String Agent)
    (create : String → Schema → Except String Agent) :
    List (String × Schema) → Except String (List (String × Agent))
  | [] => Except.ok []
  | (n, s) :: rest =>
    match provision_step fetch create n s with
    | Except.error e => Except.error e
    | Except.ok a =>
      match provision fetch create rest with
      | Except.error e => Except.error e
      | Except.ok tail => Except.ok ((n, a) :: tail)

/-- Modelled from the spec: the remote agent service behind
`extractor.get_agent` / `extractor.create_agent` (LlamaExtract) is not in
src/; per spec section 4.2 / 6 it is a fetch-by-name or
create-by-name-and-schema registry.  Its state is the set of remote
agents, keyed by name. -/
structure Remote where
  registry : List (String × Agent)
deriving DecidableEq, Repr

/-- Modelled from the spec: fetching an existing remote agent by name
succeeds exactly when one is registered under that name, otherwise fails
with a not-found error. -/
def remoteFetch (r : Remote) (n : String) : Except String Agent :=
  match r.registry.lookup n with
  | some a => Except.ok a
  | none => Except.error "not found"

/-- Modelled from the spec: creating a remote agent binds a fresh handle
to the given name and schema and registers it. -/
def remoteCreate (r : Remote) (n : String) (s : Schema) : Agent × Remote :=
  ((⟨n, s⟩ : Agent), ⟨(n, (⟨n, s⟩ : Agent)) :: r.registry⟩)

/-- The provisioning step of app.py run against the stateful remote
model: try to fetch, and on any failure create (spec operation
`ensure_agent(name, schema)`).  Returns the handle bound into `agents`
and the resulting remote state. -/
def ensure_agent (r : Remote) (n : String) (s : Schema) : Agent × Remote :=
  match remoteFetch r n with
  | Except.ok a => (a, r)
  | Except.error _ => remoteCreate r n s

/-- A Python value as far as `render_cards` can observe it: either a list
(carrying the `str()` forms of its elements, in order) or a non-list
value (carrying its `str()` form). -/
inductive PyVal where
  | prim (s : String)
  | list (elems : List String)
deriving DecidableEq, Repr

/-- `key.replace('_', ' ')` of app.py (single-character pattern). -/
def replaceUnderscores (s : String) : String :=
  ⟨s.data.map (fun c => if c = '_' then ' ' else c)⟩

/-- `doc_type.replace('-', ' ')` of app.py (single-character pattern). -/
def replaceDashes (s : String) : String :=
  ⟨s.data.map (fun c => if c = '-' then ' ' else c)⟩

/-- Core of Python `str.title()` over the character list: a letter is
uppercased when the previous character is not a letter, lowercased
otherwise; non-letters pass through and reset the word boundary.
(ASCII letters; the field and type names of app.py are ASCII.) -/
def pyTitleAux : Bool → List Char → List Char
  | _, [] => []
  | prevAlpha, c :: cs =>
    (if c.isAlpha then (if prevAlpha then c.toLower else c.toUpper) else c)
      :: pyTitleAux c.isAlpha cs

/-- Python `str.title()`. -/
def pyTitle (s : String) : String :=
  ⟨pyTitleAux false s.data⟩

/-- One rendered card: the `<h4>` title and the `<p>` body of
`render_cards`. -/
structure Card where
  title : String
  body : String
deriving DecidableEq, Repr

/-- The value-to-display-string step of `render_cards`: a list value is
replaced by its elements' `str()` forms joined with the `<br>` separator;
any other value is displayed via its `str()` form (the f-string). -/
def renderValue : PyVal → String
  | PyVal.prim s => s
  | PyVal.list es => String.intercalate "<br>" es

/-- `render_cards(data)` of app.py: one card per field in order, titled
`key.replace('_', ' ').title()`, with the list-join body rule. -/
def render_cards (data : List (String × PyVal)) : List Card :=
  data.map (fun p => ⟨pyTitle (replaceUnderscores p.1), renderValue p.2⟩)

/-- A `ClassifierRule(type=..., description=...)` of app.py. -/
structure ClassifierRule where
  type : String
  description : String
deriving DecidableEq, Repr

/-- The fixed rule list built for every classification call in app.py. -/
def rules : List ClassifierRule :=
  [⟨"invoice", "Contains invoice number, date, and total."⟩,
   ⟨"receipt", "Contains purchase info."⟩,
   ⟨"resume", "Contains skills, education, and experience."⟩,
   ⟨"aadhaar", "Contains 12-digit Aadhaar number and address."⟩,
   ⟨"pan", "Contains PAN number and name."⟩,
   ⟨"bank", "Contains transaction details and account number."⟩]

/-- A non-null classification result: type label, confidence (carried in
its display form; it is only ever formatted, never computed with) and
reasoning text. -/
structure ClassResult where
  type : String
  confidence : String
  reasoning : String
deriving DecidableEq, Repr

/-- One item of the classification response; `result` is the nullable
field tested by `if item.result is None`. -/
structure Item where
  result : Option ClassResult
deriving DecidableEq, Repr

/-- The classification response: `results.items`. -/
structure ClassifyResponse where
  items : List Item
deriving DecidableEq, Repr

/-- The extraction response; `extract_result.data` is the field map
passed to `render_cards`. -/
structure ExtractResult where
  data : List (String × PyVal)
deriving DecidableEq, Repr

/-- An exception aborting the upload handler: the IndexError from
`results.items[0]` on an empty list, or an uncaught error raised by a
remote call. -/
inductive Exn where
  | indexError
  | remote (e : String)
deriving DecidableEq, Repr

/-- Observable steps of the upload handler, in program order. -/
inductive Event where
  | writeTemp (path : String)
  | info (msg : String)
  | classifyCall (paths : List String)
  | errorMsg (msg : String)
  | classCard (docType : String) (confidence : String)
  | reasoning (text : String)
  | extractCall (agentName : String) (path : String)
  | dataHeader (title : String)
  | cards (cs : List Card)
  | warning (msg : String)
  | removeTemp (path : String)
deriving DecidableEq, Repr

/-- `temp_file_path = f"temp_{uploaded_file.name}"`. -/
def tempPath (fileName : String) : String :=
  "temp_" ++ fileName

/-- The `if uploaded_file:` block of app.py.  `classify` and `extract`
are oracles for the two remote calls; `agents` is the provisioned map.
Returns the trace of events emitted before the request ends, and the
uncaught exception aborting it, if any. -/
def handle_upload (fileName : String)
    (classify : List ClassifierRule → List String → Except String ClassifyResponse)
    (agents : List (String × Agent))
    (extract : Agent → String → Except String ExtractResult) :
    List Event × Option Exn :=
  let temp := tempPath fileName
  let ev0 := [Event.writeTemp temp, Event.info "🔍 Classifying document...",
              Event.classifyCall [temp]]
  match classify rules [temp] with
  | Except.error e => (ev0, some (Exn.remote e))
  | Except.ok results =>
    match results.items with
    | [] => (ev0, some Exn.indexError)
    | item :: _ =>
      match item.result with
      | none =>
        (ev0 ++ [Event.errorMsg "⚠️ Classification failed for this document.",
                 Event.removeTemp temp], none)
      | some res =>
        let ev1 := ev0 ++ [Event.classCard res.type res.confidence,
                           Event.reasoning res.reasoning,
                           Event.info "⚡ Extracting data..."]
        match agents.lookup (res.type ++ "-extractor") with
        | some extract_agent =>
          let ev2 := ev1 ++ [Event.extractCall extract_agent.name temp]
          match extract extract_agent temp with
          | Except.error e => (ev2, some (Exn.remote e))
          | Except.ok extract_result =>
            (ev2 ++ [Event.dataHeader (pyTitle (replaceDashes res.type)),
                     Event.cards (render_cards extract_result.data),
                     Event.removeTemp temp], none)
        | none =>
          (ev1 ++ [Event.warning ("No extractor found for document type: " ++ res.type),
                   Event.removeTemp temp], none)

/-! Helper lemmas shared by several claims. -/

/-- A successful provisioning run binds exactly the input names, in
order. -/
theorem provision_keys (fetch : String → Except String Agent)
    (create : String → Schema → Except String Agent) :
    ∀ (defs : List (String × Schema)) (ags : List (String × Agent)),
      provision fetch create defs = Except.ok ags →
      ags.map Prod.fst = defs.map Prod.fst := by
  intro defs
  induction defs with
  | nil =>
    intro ags h
    simp [provision] at h
    simp [← h]
  | cons p t ih =>
    intro ags h
    obtain ⟨n, s⟩ := p
    unfold provision at h
    cases hstep : provision_step fetch create n s with
    | error e => rw [hstep] at h; exact absurd h (by simp)
    | ok a =>
      rw [hstep] at h
      cases hrest : provision fetch create t with
      | error e => rw [hrest] at h; exact absurd h (by simp)
      | ok tail =>
        rw [hrest] at h
        simp only [Except.ok.injEq] at h
        subst h
        simp [ih tail hrest]

/-- A key occurring among the first components of an association list is
found by `List.lookup`. -/
theorem lookup_isSome_of_mem_keys {β : Type} :
    ∀ (l : List (String × β)) (k : String),
      k ∈ l.map Prod.fst → ∃ v, l.lookup k = some v := by
  intro l
  induction l with
  | nil => intro k h; simp at h
  | cons p t ih =>
    intro k h
    by_cases hk : k = p.1
    · exact ⟨p.2, by simp [List.lookup, hk]⟩
    · have hmem : k ∈ t.map Prod.fst := by
        simp only [List.map_cons, List.mem_cons] at h
        exact h.resolve_left hk
      obtain ⟨v, hv⟩ := ih k hmem
      have hbeq : (k == p.1) = false := beq_eq_false_iff_ne.mpr hk
      exact ⟨v, by simp [List.lookup, hbeq, hv]⟩

/-- Each binding produced by a successful provisioning run over a table
with distinct names comes from the fetch (when it succeeded) or from the
create oracle. -/
theorem provision_lookup_of_mem (fetch : String → Except String Agent)
    (create : String → Schema → Except String Agent) :
    ∀ (defs : List (String × Schema)) (ags : List (String × Agent)),
      (defs.map Prod.fst).Nodup →
      provision fetch create defs = Except.ok ags →
      ∀ n s, (n, s) ∈ defs →
        ∃ a, ags.lookup n = some a ∧
          (fetch n = Except.ok a ∨ create n s = Except.ok a) := by
  intro defs
  induction defs with
  | nil => intro ags _ _ n s hmem; simp at hmem
  | cons p t ih =>
    intro ags hnd h n s hmem
    obtain ⟨n₁, s₁⟩ := p
    unfold provision at h
    cases hstep : provision_step fetch create n₁ s₁ with
    | error e => rw [hstep] at h; exact absurd h (by simp)
    | ok a =>
      rw [hstep] at h
      cases hrest : provision fetch create t with
      | error e => rw [hrest] at h; exact absurd h (by simp)
      | ok tail =>
        rw [hrest] at h
        simp only [Except.ok.injEq] at h
        subst h
        simp only [List.map_cons, List.nodup_cons] at hnd
        rcases List.mem_cons.mp hmem with heq | hmem'
        · have hn : n = n₁ := congrArg Prod.fst heq
          have hs : s = s₁ := congrArg Prod.snd heq
          subst hn; subst hs
          refine ⟨a, by simp [List.lookup], ?_⟩
          unfold provision_step at hstep
          cases hf : fetch n with
          | ok b =>
            rw [hf] at hstep
            simp only [Except.ok.injEq] at hstep
            subst hstep
            exact Or.inl rfl
          | error e => rw [hf] at hstep; exact Or.inr hstep
        · have hne : n ≠ n₁ := by
            intro hcontra
            subst hcontra
            exact hnd.1 (List.mem_map_of_mem Prod.fst hmem')
          have hbeq : (n == n₁) = false := beq_eq_false_iff_ne.mpr hne
          obtain ⟨a', ha', hsrc⟩ := ih tail hnd.2 hrest n s hmem'
          exact ⟨a', by simp [List.lookup, hbeq, ha'], hsrc⟩

/-! Claim theorems. -/

/-- C4: whenever the fetch of an existing remote agent fails, for any
reason whatsoever, the provisioning step does not propagate the fetch
error and instead falls through to creating a new agent bound to that
name and schema. -/
theorem fetch_failure_falls_through_to_create
    (fetch : String → Except String Agent)
    (create : String → Schema → Except String Agent)
    (name : String) (schema : Schema) (e : String)
    (h : fetch name = Except.error e) :
    provision_step fetch create name schema = create name schema := by
  simp [provision_step, h]

/-- Witness for C4 at a concrete transient (non-not-found) fetch error. -/
theorem fetch_failure_falls_through_to_create_witness :
    (fun _ : String => (Except.error "connection reset" : Except String Agent))
        "invoice-extractor" = Except.error "connection reset" ∧
    provision_step (fun _ => Except.error "connection reset")
        (fun n s => Except.ok ⟨n, s⟩) "invoice-extractor" Invoice
      = (fun n s => (Except.ok (⟨n, s⟩ : Agent) : Except String Agent))
          "invoice-extractor" Invoice :=
  ⟨rfl, fetch_failure_falls_through_to_create _ _ "invoice-extractor" Invoice
    "connection reset" rfl⟩

/-- C9: provisioning is idempotent per agent name: after one
`ensure_agent` run, fetching the name succeeds with the bound handle, and
running `ensure_agent` again returns the same handle and leaves the
remote state (hence the schema bound to the agent) unaltered, without
reaching the create operation. -/
theorem ensure_agent_idempotent (r : Remote) (n : String) (s : Schema) :
    remoteFetch (ensure_agent r n s).2 n = Except.ok (ensure_agent r n s).1 ∧
    ensure_agent (ensure_agent r n s).2 n s = ensure_agent r n s := by
  cases hl : r.registry.lookup n with
  | some a =>
    have hf : remoteFetch r n = Except.ok a := by simp [remoteFetch, hl]
    simp [ensure_agent, hf]
  | none =>
    have hf : remoteFetch r n = Except.error "not found" := by
      simp [remoteFetch, hl]
    have hf2 : remoteFetch (remoteCreate r n s).2 n
        = Except.ok (remoteCreate r n s).1 := by
      simp [remoteFetch, remoteCreate, List.lookup]
    simp [ensure_agent, hf, hf2]

/-- C6: every list-valued field of the data handed to `render_cards` is
rendered as the single display string obtained by joining the string
forms of its elements, in their original order, with the visible
separator `<br>`. -/
theorem list_field_rendered_joined (data : List (String × PyVal))
    (k : String) (es : List String)
    (h : (k, PyVal.list es) ∈ data) :
    (⟨pyTitle (replaceUnderscores k), String.intercalate "<br>" es⟩ : Card)
      ∈ render_cards data :=
  List.mem_map_of_mem _ h

/-- Witness for C6: the field `items` with elements `a`, `b` renders as
the card titled `Items` with body `a<br>b`. -/
theorem list_field_rendered_joined_witness :
    ((⟨pyTitle (replaceUnderscores "items"),
        String.intercalate "<br>" ["a", "b"]⟩ : Card)
      ∈ render_cards [("items", PyVal.list ["a", "b"])]) ∧
    (⟨pyTitle (replaceUnderscores "items"),
        String.intercalate "<br>" ["a", "b"]⟩ : Card)
      = ⟨"Items", "a<br>b"⟩ :=
  ⟨list_field_rendered_joined _ "items" ["a", "b"] (by simp), by decide⟩

/-- C7: every card produced by `render_cards` is titled with the field
name after replacing each underscore by a space and applying Python
title case. -/
theorem card_title_formatting (data : List (String × PyVal))
    (k : String) (v : PyVal) (h : (k, v) ∈ data) :
    ∃ c ∈ render_cards data, c.title = pyTitle (replaceUnderscores k) :=
  ⟨_, List.mem_map_of_mem _ h, rfl⟩

/-- Witness for C7: the field `invoice_number` yields a card titled
`Invoice Number`. -/
theorem card_title_formatting_witness :
    (∃ c ∈ render_cards [("invoice_number", PyVal.prim "INV-001")],
        c.title = pyTitle (replaceUnderscores "invoice_number")) ∧
    pyTitle (replaceUnderscores "invoice_number") = "Invoice Number" :=
  ⟨card_title_formatting _ "invoice_number" (PyVal.prim "INV-001") (by simp),
   by decide⟩

/-- C1: when the classification call returns a null result for the
submitted file, the handler shows the visible error message, never
invokes the extraction operation, finishes without an uncaught
exception, and deletes the temporary file before the request ends. -/
theorem null_result_skips_extraction_and_cleans_up
    (fileName : String)
    (classify : List ClassifierRule → List String → Except String ClassifyResponse)
    (agents : List (String × Agent))
    (extract : Agent → String → Except String ExtractResult)
    (resp : ClassifyResponse) (item : Item) (rest : List Item)
    (hc : classify rules [tempPath fileName] = Except.ok resp)
    (hi : resp.items = item :: rest)
    (hn : item.result = none) :
    (handle_upload fileName classify agents extract).2 = none ∧
    Event.errorMsg "⚠️ Classification failed for this document."
      ∈ (handle_upload fileName classify agents extract).1 ∧
    Event.removeTemp (tempPath fileName)
      ∈ (handle_upload fileName classify agents extract).1 ∧
    ∀ a p, Event.extractCall a p
      ∉ (handle_upload fileName classify agents extract).1 := by
  simp [handle_upload, hc, hi, hn]

/-- Witness for C1 at a concrete upload whose classification result is
null. -/
theorem null_result_skips_extraction_and_cleans_up_witness :
    ((fun (_ : List ClassifierRule) (_ : List String) =>
        (Except.ok ⟨[⟨none⟩]⟩ : Except String ClassifyResponse))
        rules [tempPath "bad.pdf"]
      = (Except.ok ⟨[⟨none⟩]⟩ : Except String ClassifyResponse)) ∧
    (⟨[⟨none⟩]⟩ : ClassifyResponse).items = ⟨none⟩ :: [] ∧
    (⟨none⟩ : Item).result = none ∧
    ((handle_upload "bad.pdf" (fun _ _ => Except.ok ⟨[⟨none⟩]⟩) []
        (fun _ _ => Except.error "boom")).2 = none ∧
     Event.errorMsg "⚠️ Classification failed for this document."
       ∈ (handle_upload "bad.pdf" (fun _ _ => Except.ok ⟨[⟨none⟩]⟩) []
           (fun _ _ => Except.error "boom")).1 ∧
     Event.removeTemp (tempPath "bad.pdf")
       ∈ (handle_upload "bad.pdf" (fun _ _ => Except.ok ⟨[⟨none⟩]⟩) []
           (fun _ _ => Except.error "boom")).1 ∧
     ∀ a p, Event.extractCall a p
       ∉ (handle_upload "bad.pdf" (fun _ _ => Except.ok ⟨[⟨none⟩]⟩) []
           (fun _ _ => Except.error "boom")).1) :=
  ⟨rfl, rfl, rfl,
   null_result_skips_extraction_and_cleans_up "bad.pdf" _ [] _ _ _ _ rfl rfl rfl⟩

/-- C2: when classification returns a non-null result whose type label
has no agent registered under `type-extractor`, the handler shows the
exact warning message, never invokes extraction, finishes without an
uncaught exception, and deletes the temporary file. -/
theorem missing_agent_warns_and_cleans_up
    (fileName : String)
    (classify : List ClassifierRule → List String → Except String ClassifyResponse)
    (agents : List (String × Agent))
    (extract : Agent → String → Except String ExtractResult)
    (resp : ClassifyResponse) (item : Item) (rest : List Item) (res : ClassResult)
    (hc : classify rules [tempPath fileName] = Except.ok resp)
    (hi : resp.items = item :: rest)
    (hr : item.result = some res)
    (hl : agents.lookup (res.type ++ "-extractor") = none) :
    (handle_upload fileName classify agents extract).2 = none ∧
    Event.warning ("No extractor found for document type: " ++ res.type)
      ∈ (handle_upload fileName classify agents extract).1 ∧
    ∀ a p, Event.extractCall a p
      ∉ (handle_upload fileName classify agents extract).1 ∧
    Event.removeTemp (tempPath fileName)
      ∈ (handle_upload fileName classify agents extract).1 := by
  simp [handle_upload, hc, hi, hr, hl]

/-- Witness for C2: a document classified as the unregistered type
`payslip` yields the warning, no extraction call and temp-file removal. -/
theorem missing_agent_warns_and_cleans_up_witness :
    ((fun (_ : List ClassifierRule) (_ : List String) =>
        (Except.ok ⟨[⟨some ⟨"payslip", "0.91", "pay stub"⟩⟩]⟩
          : Except String ClassifyResponse)) rules [tempPath "pay.pdf"]
      = (Except.ok ⟨[⟨some ⟨"payslip", "0.91", "pay stub"⟩⟩]⟩
          : Except String ClassifyResponse)) ∧
    (⟨[⟨some ⟨"payslip", "0.91", "pay stub"⟩⟩]⟩ : ClassifyResponse).items
      = ⟨some ⟨"payslip", "0.91", "pay stub"⟩⟩ :: [] ∧
    (⟨some ⟨"payslip", "0.91", "pay stub"⟩⟩ : Item).result
      = some ⟨"payslip", "0.91", "pay stub"⟩ ∧
    (([] : List (String × Agent)).lookup
        ((⟨"payslip", "0.91", "pay stub"⟩ : ClassResult).type ++ "-extractor") = none) ∧
    ((handle_upload "pay.pdf"
        (fun _ _ => Except.ok ⟨[⟨some ⟨"payslip", "0.91", "pay stub"⟩⟩]⟩) []
        (fun _ _ => Except.error "boom")).2 = none ∧
     Event.warning ("No extractor found for document type: " ++
         (⟨"payslip", "0.91", "pay stub"⟩ : ClassResult).type)
       ∈ (handle_upload "pay.pdf"
           (fun _ _ => Except.ok ⟨[⟨some ⟨"payslip", "0.91", "pay stub"⟩⟩]⟩) []
           (fun _ _ => Except.error "boom")).1 ∧
     ∀ a p, Event.extractCall a p
       ∉ (handle_upload "pay.pdf"
           (fun _ _ => Except.ok ⟨[⟨some ⟨"payslip", "0.91", "pay stub"⟩⟩]⟩) []
           (fun _ _ => Except.error "boom")).1 ∧
     Event.removeTemp (tempPath "pay.pdf")
       ∈ (handle_upload "pay.pdf"
           (fun _ _ => Except.ok ⟨[⟨some ⟨"payslip", "0.91", "pay stub"⟩⟩]⟩) []
           (fun _ _ => Except.error "boom")).1) :=
  ⟨rfl, rfl, rfl, rfl,
   missing_agent_warns_and_cleans_up "pay.pdf" _ [] _ _ _ _ _ rfl rfl rfl rfl⟩

/-- C5: when the agent is found but the remote extraction call raises,
the request aborts with that exception and the temporary-file deletion is
never executed, so the temporary file remains on disk. -/
theorem extract_failure_aborts_without_cleanup
    (fileName : String)
    (classify : List ClassifierRule → List String → Except String ClassifyResponse)
    (agents : List (String × Agent))
    (extract : Agent → String → Except String ExtractResult)
    (resp : ClassifyResponse) (item : Item) (rest : List Item)
    (res : ClassResult) (ag : Agent) (e : String)
    (hc : classify rules [tempPath fileName] = Except.ok resp)
    (hi : resp.items = item :: rest)
    (hr : item.result = some res)
    (hl : agents.lookup (res.type ++ "-extractor") = some ag)
    (he : extract ag (tempPath fileName) = Except.error e) :
    (handle_upload fileName classify agents extract).2 = some (Exn.remote e) ∧
    Event.removeTemp (tempPath fileName)
      ∉ (handle_upload fileName classify agents extract).1 := by
  simp [handle_upload, hc, hi, hr, hl, he]

/-- Witness for C5: with the invoice agent registered, an extraction
error aborts the request and the trace contains no temp-file removal. -/
theorem extract_failure_aborts_without_cleanup_witness :
    ((fun (_ : List ClassifierRule) (_ : List String) =>
        (Except.ok ⟨[⟨some ⟨"invoice", "0.91", "inv"⟩⟩]⟩
          : Except String ClassifyResponse)) rules [tempPath "inv.pdf"]
      = (Except.ok ⟨[⟨some ⟨"invoice", "0.91", "inv"⟩⟩]⟩
          : Except String ClassifyResponse)) ∧
    (⟨[⟨some ⟨"invoice", "0.91", "inv"⟩⟩]⟩ : ClassifyResponse).items
      = ⟨some ⟨"invoice", "0.91", "inv"⟩⟩ :: [] ∧
    (⟨some ⟨"invoice", "0.91", "inv"⟩⟩ : Item).result
      = some ⟨"invoice", "0.91", "inv"⟩ ∧
    ([("invoice-extractor", (⟨"invoice-extractor", Invoice⟩ : Agent))].lookup
        ((⟨"invoice", "0.91", "inv"⟩ : ClassResult).type ++ "-extractor")
      = some (⟨"invoice-extractor", Invoice⟩ : Agent)) ∧
    ((fun (_ : Agent) (_ : String) =>
        (Except.error "rate limited" : Except String ExtractResult))
        (⟨"invoice-extractor", Invoice⟩ : Agent) (tempPath "inv.pdf")
      = Except.error "rate limited") ∧
    ((handle_upload "inv.pdf"
        (fun _ _ => Except.ok ⟨[⟨some ⟨"invoice", "0.91", "inv"⟩⟩]⟩)
        [("invoice-extractor", ⟨"invoice-extractor", Invoice⟩)]
        (fun _ _ => Except.error "rate limited")).2
      = some (Exn.remote "rate limited") ∧
     Event.removeTemp (tempPath "inv.pdf")
       ∉ (handle_upload "inv.pdf"
           (fun _ _ => Except.ok ⟨[⟨some ⟨"invoice", "0.91", "inv"⟩⟩]⟩)
           [("invoice-extractor", ⟨"invoice-extractor", Invoice⟩)]
           (fun _ _ => Except.error "rate limited")).1) :=
  ⟨rfl, rfl, rfl, rfl, rfl,
   extract_failure_aborts_without_cleanup "inv.pdf" _ _ _ _ _ [] _ _ _
     rfl rfl rfl rfl rfl⟩

/-- C3: after the provisioning loop completes, every one of the ten
registered names of the agent definitions table is present in the agents
mapping, bound to a handle obtained either by fetch or by create. -/
theorem provisioning_covers_all_types
    (fetch : String → Except String Agent)
    (create : String → Schema → Except String Agent)
    (ags : List (String × Agent))
    (hok : provision fetch create agent_definitions = Except.ok ags) :
    agent_definitions.length = 10 ∧
    ∀ n s, (n, s) ∈ agent_definitions →
      ∃ a, ags.lookup n = some a ∧
        (fetch n = Except.ok a ∨ create n s = Except.ok a) :=
  ⟨rfl, provision_lookup_of_mem fetch create agent_definitions ags
    (by decide) hok⟩

/-- Witness for C3 at oracles where every fetch fails and every create
succeeds with a handle bound to the requested name and schema. -/
theorem provisioning_covers_all_types_witness :
    provision (fun _ => Except.error "down") (fun n s => Except.ok ⟨n, s⟩)
        agent_definitions
      = Except.ok (agent_definitions.map (fun p => (p.1, (⟨p.1, p.2⟩ : Agent)))) ∧
    (agent_definitions.length = 10 ∧
     ∀ n s, (n, s) ∈ agent_definitions →
       ∃ a, (agent_definitions.map
            (fun p => (p.1, (⟨p.1, p.2⟩ : Agent)))).lookup n = some a ∧
         ((fun _ : String => (Except.error "down" : Except String Agent)) n
             = Except.ok a ∨
          (fun n s => (Except.ok (⟨n, s⟩ : Agent) : Except String Agent)) n s
             = Except.ok a)) :=
  ⟨rfl, provisioning_covers_all_types _ _ _ rfl⟩

/-- C8: the handler submits exactly one file path on every classification
call it makes, and when the classification oracle returns one result per
input path the unguarded access to the first result item never raises an
index error. -/
theorem single_path_first_item_access_safe
    (fileName : String)
    (classify : List ClassifierRule → List String → Except String ClassifyResponse)
    (agents : List (String × Agent))
    (extract : Agent → String → Except String ExtractResult)
    (hresp : ∀ ps resp, classify rules ps = Except.ok resp →
      resp.items.length = ps.length) :
    (∀ ps, Event.classifyCall ps
        ∈ (handle_upload fileName classify agents extract).1 → ps.length = 1) ∧
    (handle_upload fileName classify agents extract).2 ≠ some Exn.indexError := by
  cases hc : classify rules [tempPath fileName] with
  | error e => constructor <;> simp [handle_upload, hc]
  | ok resp =>
    cases hitems : resp.items with
    | nil =>
      have hlen := hresp _ _ hc
      rw [hitems] at hlen
      simp at hlen
    | cons item rest =>
      cases hr : item.result with
      | none => constructor <;> simp [handle_upload, hc, hitems, hr]
      | some res =>
        cases hl : agents.lookup (res.type ++ "-extractor") with
        | none => constructor <;> simp [handle_upload, hc, hitems, hr, hl]
        | some ag =>
          cases he : extract ag (tempPath fileName) with
          | error e =>
            constructor <;> simp [handle_upload, hc, hitems, hr, hl, he]
          | ok er =>
            constructor <;> simp [handle_upload, hc, hitems, hr, hl, he]

/-- Witness for C8 at a classification oracle returning exactly one null
item per submitted path. -/
theorem single_path_first_item_access_safe_witness :
    (∀ ps resp,
      (fun (_ : List ClassifierRule) (ps : List String) =>
          (Except.ok ⟨ps.map (fun _ => (⟨none⟩ : Item))⟩
            : Except String ClassifyResponse)) rules ps = Except.ok resp →
        resp.items.length = ps.length) ∧
    ((∀ ps, Event.classifyCall ps
        ∈ (handle_upload "doc.pdf"
            (fun _ ps => Except.ok ⟨ps.map (fun _ => ⟨none⟩)⟩) []
            (fun _ _ => Except.error "boom")).1 → ps.length = 1) ∧
     (handle_upload "doc.pdf"
        (fun _ ps => Except.ok ⟨ps.map (fun _ => ⟨none⟩)⟩) []
        (fun _ _ => Except.error "boom")).2 ≠ some Exn.indexError) := by
  have hresp : ∀ ps resp,
      (fun (_ : List ClassifierRule) (ps : List String) =>
          (Except.ok ⟨ps.map (fun _ => (⟨none⟩ : Item))⟩
            : Except String ClassifyResponse)) rules ps = Except.ok resp →
        resp.items.length = ps.length := by
    intro ps resp h
    simp only [Except.ok.injEq] at h
    subst h
    simp
  exact ⟨hresp, single_path_first_item_access_safe "doc.pdf" _ [] _ hresp⟩

/-- C10: every type label of the submitted rule set has its
`type-extractor` key in the provisioned agents mapping, so whenever the
classifier returns a label drawn from the rules the missing-agent warning
is unreachable and the extraction call is made. -/
theorem rule_types_never_hit_missing_agent
    (fetch : String → Except String Agent)
    (create : String → Schema → Except String Agent)
    (ags : List (String × Agent))
    (fileName : String)
    (classify : List ClassifierRule → List String → Except String ClassifyResponse)
    (extract : Agent → String → Except String ExtractResult)
    (resp : ClassifyResponse) (item : Item) (rest : List Item) (res : ClassResult)
    (hprov : provision fetch create agent_definitions = Except.ok ags)
    (hc : classify rules [tempPath fileName] = Except.ok resp)
    (hi : resp.items = item :: rest)
    (hr : item.result = some res)
    (ht : res.type ∈ rules.map ClassifierRule.type) :
    (ags.lookup (res.type ++ "-extractor")).isSome ∧
    (∀ m, Event.warning m
        ∉ (handle_upload fileName classify ags extract).1) ∧
    (∃ a, Event.extractCall a (tempPath fileName)
        ∈ (handle_upload fileName classify ags extract).1) := by
  have hkey : res.type ++ "-extractor" ∈ ags.map Prod.fst := by
    rw [provision_keys fetch create agent_definitions ags hprov]
    simp only [rules, List.map_cons, List.map_nil, List.mem_cons,
      List.not_mem_nil, or_false] at ht
    rcases ht with h | h | h | h | h | h <;> (rw [h]; decide)
  obtain ⟨ag, hl⟩ := lookup_isSome_of_mem_keys ags _ hkey
  refine ⟨by simp [hl], ?_, ?_⟩
  · intro m
    cases he : extract ag (tempPath fileName) <;>
      simp [handle_upload, hc, hi, hr, hl, he]
  · refine ⟨ag.name, ?_⟩
    cases he : extract ag (tempPath fileName) <;>
      simp [handle_upload, hc, hi, hr, hl, he]

/-- Witness for C10: a document classified as `invoice` against the
provisioned table reaches the extraction call and triggers no warning. -/
theorem rule_types_never_hit_missing_agent_witness :
    provision (fun _ => Except.error "offline") (fun n s => Except.ok ⟨n, s⟩)
        agent_definitions
      = Except.ok (agent_definitions.map (fun p => (p.1, (⟨p.1, p.2⟩ : Agent)))) ∧
    ((fun (_ : List ClassifierRule) (_ : List String) =>
        (Except.ok ⟨[⟨some ⟨"invoice", "0.93", "has totals"⟩⟩]⟩
          : Except String ClassifyResponse)) rules [tempPath "a.pdf"]
      = (Except.ok ⟨[⟨some ⟨"invoice", "0.93", "has totals"⟩⟩]⟩
          : Except String ClassifyResponse)) ∧
    (⟨[⟨some ⟨"invoice", "0.93", "has totals"⟩⟩]⟩ : ClassifyResponse).items
      = ⟨some ⟨"invoice", "0.93", "has totals"⟩⟩ :: [] ∧
    (⟨some ⟨"invoice", "0.93", "has totals"⟩⟩ : Item).result
      = some ⟨"invoice", "0.93", "has totals"⟩ ∧
    (⟨"invoice", "0.93", "has totals"⟩ : ClassResult).type
      ∈ rules.map ClassifierRule.type ∧
    (((agent_definitions.map (fun p => (p.1, (⟨p.1, p.2⟩ : Agent)))).lookup
        ((⟨"invoice", "0.93", "has totals"⟩ : ClassResult).type ++ "-extractor")).isSome ∧
     (∀ m, Event.warning m
        ∉ (handle_upload "a.pdf"
            (fun _ _ => Except.ok ⟨[⟨some ⟨"invoice", "0.93", "has totals"⟩⟩]⟩)
            (agent_definitions.map (fun p => (p.1, ⟨p.1, p.2⟩)))
            (fun _ _ => Except.ok ⟨[("invoice_number", PyVal.prim "INV-001")]⟩)).1) ∧
     (∃ a, Event.extractCall a (tempPath "a.pdf")
        ∈ (handle_upload "a.pdf"
            (fun _ _ => Except.ok ⟨[⟨some ⟨"invoice", "0.93", "has totals"⟩⟩]⟩)
            (agent_definitions.map (fun p => (p.1, ⟨p.1, p.2⟩)))
            (fun _ _ => Except.ok ⟨[("invoice_number", PyVal.prim "INV-001")]⟩)).1)) :=
  ⟨rfl, rfl, rfl, rfl, by decide,
   rule_types_never_hit_missing_agent (fun _ => Except.error "offline")
     (fun n s => Except.ok ⟨n, s⟩) _ "a.pdf" _ _ _ _ [] _
     rfl rfl rfl rfl (by decide)⟩

end DocApp
